import Mathlib

/-!
Verification of the ride-hailing backend's dispatch core: the on-duty driver
registry and its socket event handlers, the proximity matcher
(`sendNearbyRiders`), the ride state machine (`acceptRide`,
`updateRideStatus`, `cancelRide`, the `customerCancelRide` socket handler),
and the per-ride retry/timeout dispatch loop (`retrySearch`).

The JavaScript controllers are embedded shallowly:

* JavaScript numbers arriving in socket payloads are modelled by `JsVal`
  (a finite rational, `NaN`, a string, or `undefined`); payloads travel as
  JSON, which carries only finite numbers, strings and nulls.
* The external geodesic library (`geolib.getDistance`) is a parameter
  `dist` of every definition that calls it: the properties proved here hold
  for every possible distance function, exactly as the code makes no
  assumption about it beyond returning a number of meters.
* Database documents (rides, users) reached through `findById` are passed
  as `Option`-valued arguments: `none` models a lookup miss.
* Every Express controller wraps its body in `try/catch` and rethrows a
  generic `BadRequestError`; this is modelled by a `*Try` function giving
  the inner outcome and a wrapper function giving the outcome actually
  delivered to the caller.
* Ride fields not touched by any verified operation (fare, otp, drop,
  passenger count, timestamps of creation) are omitted from the record;
  all fields read or written by accept/update/cancel are present.
-/

/-- A JavaScript value as it can arrive in a socket payload field:
`undefined`/missing, a string, `NaN`, or a finite number (JSON transport
delivers only finite numbers). -/
inductive JsVal where
  | undef : JsVal
  | nan : JsVal
  | num (q : ℚ) : JsVal
  | str (s : String) : JsVal
deriving DecidableEq, Repr

/-- `typeof v === 'number'` — true for finite numbers and for `NaN`. -/
def JsVal.isNumberType : JsVal → Bool
  | .num _ => true
  | .nan => true
  | _ => false

/-- `isNaN(v)` for values already known to be of number type. -/
def JsVal.isNaNVal : JsVal → Bool
  | .nan => true
  | _ => false

/-- JavaScript truthiness (used for `coords.heading || 0`). -/
def JsVal.truthy : JsVal → Bool
  | .undef => false
  | .nan => false
  | .num q => q ≠ 0
  | .str s => s ≠ ""

/-- A stored coordinate is a finite number. -/
def JsVal.isFiniteNum : JsVal → Bool
  | .num _ => true
  | _ => false

/-- The `coords` object of a `goOnDuty` / `updateLocation` payload. -/
structure CoordsPayload where
  latitude : JsVal
  longitude : JsVal
  heading : JsVal
deriving DecidableEq, Repr

/-- Coordinates as stored in an on-duty registry entry (the `validCoords`
object built by the handlers). -/
structure StoredCoords where
  latitude : JsVal
  longitude : JsVal
  heading : JsVal
deriving DecidableEq, Repr

/-- The coordinate validation performed identically by the `goOnDuty` and
`updateLocation` handlers: require the payload object to exist, require
`typeof latitude/longitude === 'number'`, build `validCoords` (with
`heading: coords.heading || 0`; `parseFloat` of a number is that number),
and drop the event if a coordinate `isNaN` after parsing.  Returns the
coordinates to store, or `none` when the event must be dropped. -/
def validateCoords : Option CoordsPayload → Option StoredCoords
  | none => none
  | some c =>
    if c.latitude.isNumberType ∧ c.longitude.isNumberType then
      match c.latitude, c.longitude with
      | .num la, .num lo =>
        some ⟨.num la, .num lo, if c.heading.truthy then c.heading else .num 0⟩
      | _, _ => none
    else none

/-- One entry of the `onDutyRiders` map. -/
structure RiderEntry where
  socketId : String
  coords : StoredCoords
  riderId : ℕ
  vehicleType : String
  name : String
deriving DecidableEq, Repr

/-- The `onDutyRiders` map: a JavaScript `Map` is an insertion-ordered
association list; `set` replaces in place or appends. -/
abbrev Registry := List (ℕ × RiderEntry)

/-- `Map.prototype.get`. -/
def mapGet (reg : Registry) (k : ℕ) : Option RiderEntry :=
  (List.find? (fun p => p.1 = k) reg).map (·.2)

/-- `Map.prototype.set`: replace an existing key in place, else append. -/
def mapSet (reg : Registry) (k : ℕ) (v : RiderEntry) : Registry :=
  if (List.find? (fun p => p.1 = k) reg).isSome then
    List.map (fun p => if p.1 = k then (k, v) else p) reg
  else reg ++ [(k, v)]

/-- `Map.prototype.delete`. -/
def mapDelete (reg : Registry) (k : ℕ) : Registry :=
  List.filter (fun p => ¬p.1 = k) reg

/-- `riderInfo?.vehicleType || "Tricycle"`: fall back on a missing rider
document or a falsy vehicle type. -/
def vehicleOrDefault : Option String → String
  | none => "Tricycle"
  | some s => if s = "" then "Tricycle" else s

/-- The socket events that read or write the on-duty registry.  Each
carries what the handler reads from the socket and the database:
the authenticated user id, the socket id, the rider document's vehicle
type and display name, the payload coordinates, and (for
`updateLocation`) whether `socket.rooms.has('onDuty')`. -/
inductive RegEvent where
  | goOnDuty (uid : ℕ) (sid : String) (vehicleType : Option String)
      (name : String) (coords : Option CoordsPayload) : RegEvent
  | updateLocation (uid : ℕ) (sid : String) (vehicleType : Option String)
      (name : String) (inOnDutyRoom : Bool) (coords : Option CoordsPayload) : RegEvent
  | goOffDuty (uid : ℕ) : RegEvent
  | disconnectTimeout (uid : ℕ) (sid : String) : RegEvent

/-- Effect of one socket event on the registry, following the handlers in
the sockets controller:

* `goOnDuty` validates the coordinates and upserts the full entry;
* `updateLocation` validates, then updates coordinates in place when the
  rider is in the map, re-registers the full entry when the rider is in
  the `onDuty` room but missing from the map, and ignores the update
  otherwise;
* `goOffDuty` deletes the entry;
* `disconnectTimeout` is the delayed disconnect cleanup: it deletes the
  entry only when its socket id still equals the disconnected socket's. -/
def regStep (reg : Registry) : RegEvent → Registry
  | .goOnDuty uid sid vt name c? =>
    match validateCoords c? with
    | none => reg
    | some sc => mapSet reg uid ⟨sid, sc, uid, vehicleOrDefault vt, name⟩
  | .updateLocation uid sid vt name inRoom c? =>
    match validateCoords c? with
    | none => reg
    | some sc =>
      match mapGet reg uid with
      | some e => mapSet reg uid { e with coords := sc }
      | none =>
        if inRoom then mapSet reg uid ⟨sid, sc, uid, vehicleOrDefault vt, name⟩
        else reg
  | .goOffDuty uid => mapDelete reg uid
  | .disconnectTimeout uid sid =>
    match mapGet reg uid with
    | some e => if e.socketId = sid then mapDelete reg uid else reg
    | none => reg

/-- Run a sequence of socket events against a registry, starting from the
process-start state `[]` in the theorems (`const onDutyRiders = new Map()`). -/
def runEvents (evs : List RegEvent) (reg : Registry) : Registry :=
  evs.foldl regStep reg

/-- Well-formedness of a registry: every stored entry has finite numeric
coordinates. -/
def RegistryWF (reg : Registry) : Prop :=
  ∀ p ∈ reg, p.2.coords.latitude.isFiniteNum = true ∧
    p.2.coords.longitude.isFiniteNum = true

/-- One element of the `nearbyRidersArray` that `sendNearbyRiders` builds:
the fields of the emitted rider object that the matcher and dispatch paths
act on (distance filter, distance sort, `rideOffer` emission target). -/
structure RiderData where
  riderId : ℕ
  distance : ℚ
  socketId : String
  vehicleType : String
deriving DecidableEq, Repr

/-- The relation `sendNearbyRiders` sorts by:
`(a, b) => a.distance - b.distance`, i.e. ascending distance. -/
def distLE (a b : RiderData) : Prop := a.distance ≤ b.distance

instance : DecidableRel distLE := fun a b =>
  inferInstanceAs (Decidable (a.distance ≤ b.distance))

instance : IsTotal RiderData distLE := ⟨fun a b => le_total a.distance b.distance⟩

instance : IsTrans RiderData distLE := ⟨fun _ _ _ h h2 => le_trans h h2⟩

/-- `sendNearbyRiders(socket, location, ride)` (pure core): iterate the
registry in insertion order, skip entries whose stored coordinates are not
both finite numbers, compute the distance from the query location to the
rider (the external `geolib.getDistance` is the parameter `dist`,
arguments in the source's order: query location first), then filter
`distance <= maxRadius` and sort ascending by distance
(`Array.prototype.sort` with the comparator above). -/
def sendNearbyRiders (dist : ℚ → ℚ → ℚ → ℚ → ℚ) (reg : Registry)
    (locLat locLon : ℚ) (maxRadius : ℚ) : List RiderData :=
  let arr : List RiderData := reg.filterMap fun p =>
    match p.2.coords.latitude, p.2.coords.longitude with
    | .num la, .num lo =>
      some ⟨p.1, dist locLat locLon la lo, p.2.socketId, p.2.vehicleType⟩
    | _, _ => none
  List.insertionSort distLE (arr.filter fun r => decide (r.distance ≤ maxRadius))

/-- When `sendNearbyRiders` is called with a non-null `ride` (the
`retrySearch` path), it emits a `rideOffer` to `rider.socketId` for every
rider in the filtered, sorted result whose socket id is truthy.  This are
the socket ids that receive the offer; no blacklist is consulted. -/
def rideOfferRecipients (dist : ℚ → ℚ → ℚ → ℚ → ℚ) (reg : Registry)
    (locLat locLon : ℚ) (maxRadius : ℚ) : List String :=
  (sendNearbyRiders dist reg locLat locLon maxRadius).filterMap fun r =>
    if r.socketId = "" then none else some r.socketId

/-- `broadcastNewRideRequest(io, rideData)`: iterate the registry, skip
riders whose id appears in the ride's `blacklistedRiders`, and emit
`newRideRequest` to each remaining rider whose socket is still connected
(`alive`).  Returns the socket ids that receive the event. -/
def newRideRequestRecipients (reg : Registry) (blacklistedRiders : List ℕ)
    (alive : String → Bool) : List String :=
  reg.filterMap fun p =>
    if blacklistedRiders.contains p.1 then none
    else if alive p.2.socketId then some p.2.socketId else none

/-- The pickup location embedded in a ride document; coordinates are
validated finite at ride creation. -/
structure PickupLoc where
  latitude : ℚ
  longitude : ℚ
deriving DecidableEq, Repr

/-- The ride document fields read or written by the accept, status-update
and cancel operations.  `status` is the literal status string; `rider` is
the assigned driver's id or `null`; `cancelledAt` is a timestamp. -/
structure Ride where
  customer : ℕ
  rider : Option ℕ
  status : String
  vehicle : String
  pickup : Option PickupLoc
  blacklistedRiders : List ℕ
  cancellationReason : Option String
  cancelledBy : Option String
  cancelledByName : Option String
  cancelledAt : Option ℕ
deriving DecidableEq, Repr

/-- The rider (driver) user document fields read by `acceptRide`. -/
structure DriverDoc where
  vehicleType : String
deriving DecidableEq, Repr

/-- Errors `acceptRide` can raise internally (the `throw` sites, in source
order) plus the generic error its `catch` block substitutes for every
inner one. -/
inductive AcceptErr where
  | rideIdRequired : AcceptErr
  | rideNotFound : AcceptErr
  | notAvailable : AcceptErr
  | riderNotFound : AcceptErr
  | vehicleMismatch (riderVt rideVt : String) : AcceptErr
  | locationSyncRequired : AcceptErr
  | notOnDuty : AcceptErr
  | invalidPickup : AcceptErr
  | tooFar (distanceMeters maxMeters : ℚ) : AcceptErr
  | failedGeneric : AcceptErr
deriving DecidableEq, Repr

/-- Whether an accept error carries the actual and maximum distance (the
code formats exactly these two figures as two-decimal kilometers in the
`tooFar` message). -/
def AcceptErr.reportsDistances : AcceptErr → Bool
  | .tooFar _ _ => true
  | _ => false

/-- Outcome of `acceptRide`: the saved ride on success, an error otherwise.
An error means no write happened: every `throw` in the controller precedes
the `ride.save()`. -/
inductive AcceptResult where
  | ok (ride : Ride) : AcceptResult
  | err (e : AcceptErr) : AcceptResult
deriving DecidableEq, Repr

/-- Whether the operation succeeded (and hence mutated the ride). -/
def AcceptResult.isOk : AcceptResult → Bool
  | .ok _ => true
  | .err _ => false

/-- The body of `acceptRide` inside its `try` block.  Arguments mirror what
the handler reads: the authenticated driver id, the ride document (or a
lookup miss), the driver's user document (or a miss), the on-duty registry,
whether the driver's socket was found in the `onDuty` room during the
recovery attempt, the configured radius in meters, and the external
distance function `dist` (arguments in the source's order: driver
coordinates first, pickup second). -/
def acceptRideTry (dist : ℚ → ℚ → ℚ → ℚ → ℚ) (riderId : ℕ) (ride? : Option Ride)
    (driver? : Option DriverDoc) (reg : Registry) (inOnDutyRoom : Bool)
    (maxRadius : ℚ) : AcceptResult :=
  match ride? with
  | none => .err .rideNotFound
  | some ride =>
    if ride.status ≠ "SEARCHING_FOR_RIDER" then .err .notAvailable
    else match driver? with
    | none => .err .riderNotFound
    | some driver =>
      if driver.vehicleType ≠ ride.vehicle then
        .err (.vehicleMismatch driver.vehicleType ride.vehicle)
      else match mapGet reg riderId with
      | none =>
        -- recovery path: the driver has no registry entry; if their socket
        -- is in the onDuty room the handler asks for a location re-sync,
        -- otherwise it demands going on duty — both end in a throw
        if inOnDutyRoom then .err .locationSyncRequired else .err .notOnDuty
      | some entry =>
        match ride.pickup with
        | none => .err .invalidPickup
        | some p =>
          -- JavaScript truthiness: a coordinate equal to 0 fails
          -- `!pickupLocation.latitude` just like a missing one
          if p.latitude = 0 ∨ p.longitude = 0 then .err .invalidPickup
          else
            match entry.coords.latitude, entry.coords.longitude with
            | .num rla, .num rlo =>
              let d := dist rla rlo p.latitude p.longitude
              if d > maxRadius then .err (.tooFar d maxRadius)
              else .ok { ride with rider := some riderId, status := "START" }
            | _, _ =>
              -- geolib propagates NaN coordinates to a NaN distance and
              -- `NaN > max` is false in JavaScript, so the guard passes
              -- (unreachable from system runs: registry coordinates are
              -- always finite)
              .ok { ride with rider := some riderId, status := "START" }

/-- The `acceptRide` controller as the caller sees it: the missing-ride-id
check precedes the `try` block and is delivered verbatim; every error the
body throws is caught by `catch (error)` and replaced by the generic
`BadRequestError("Failed to accept ride")`. -/
def acceptRide (dist : ℚ → ℚ → ℚ → ℚ → ℚ) (rideId : String) (riderId : ℕ)
    (ride? : Option Ride) (driver? : Option DriverDoc) (reg : Registry)
    (inOnDutyRoom : Bool) (maxRadius : ℚ) : AcceptResult :=
  if rideId = "" then .err .rideIdRequired
  else match acceptRideTry dist riderId ride? driver? reg inOnDutyRoom maxRadius with
  | .ok r => .ok r
  | .err _ => .err .failedGeneric

/-- Errors of `updateRideStatus` as delivered: the missing-parameter check
precedes the `try`; the not-found and invalid-status throws inside the
`try` are rewrapped by the `catch` into the generic failure. -/
inductive UpdateErr where
  | missingParams : UpdateErr
  | failedGeneric : UpdateErr
deriving DecidableEq, Repr

/-- Outcome of `updateRideStatus`; `ok` carries the ride the 200 response
returns — on the protected COMPLETED path that is the unchanged ride. -/
inductive UpdateResult where
  | ok (ride : Ride) : UpdateResult
  | err (e : UpdateErr) : UpdateResult
deriving DecidableEq, Repr

/-- `updateRideStatus(req, res)`.  `userId` is `req.user.id`: it is carried
by every authenticated request but the handler never reads it — there is
no ownership or role check.  Order of checks follows the source: missing
parameters, ride lookup, target-status whitelist, COMPLETED protection
(a success response returning the unchanged ride), then the write. -/
def updateRideStatus (userId : ℕ) (rideId : String) (status : String)
    (ride? : Option Ride) : UpdateResult :=
  let _ := userId
  if rideId = "" ∨ status = "" then .err .missingParams
  else match ride? with
  | none => .err .failedGeneric
  | some ride =>
    if ¬(status = "START" ∨ status = "ARRIVED" ∨ status = "COMPLETED") then
      .err .failedGeneric
    else if ride.status = "COMPLETED" then
      .ok ride
    else
      .ok { ride with status := status }

/-- Errors of `cancelRide` as delivered: the missing-ride-id check precedes
the `try`; the COMPLETED protection is a direct 400 response (not a throw,
so not rewrapped); every other inner throw becomes the generic failure. -/
inductive CancelErr where
  | rideIdRequired : CancelErr
  | completedProtected : CancelErr
  | failedGeneric : CancelErr
deriving DecidableEq, Repr

/-- Outcome of `cancelRide`; `ok` carries the saved ride and the
`cancelledBy` discriminator of the 200 response. -/
inductive CancelResult where
  | ok (ride : Ride) (cancelledBy : String) : CancelResult
  | err (e : CancelErr) : CancelResult
deriving DecidableEq, Repr

/-- Whether the cancel operation succeeded (and hence wrote the ride). -/
def CancelResult.isOk : CancelResult → Bool
  | .ok _ _ => true
  | .err _ => false

/-- `if (reason) ride.cancellationReason = reason` — an empty string is
falsy and leaves the stored reason unchanged. -/
def applyReason (reason : Option String) (old : Option String) : Option String :=
  match reason with
  | some r => if r = "" then old else some r
  | none => old

/-- The body of `cancelRide` inside its `try` block.  `customerName` and
`riderName` are the display names of the populated customer and rider
documents; `now` is the cancellation timestamp.  Checks in source order:
lookup, authorization (requester must be the ride's customer or its
assigned rider), COMPLETED protection, allowed-stage whitelist; then the
actor branch: a rider cancelling is blacklisted (no duplicates) and, on a
still-searching ride, the ride is reset (`rider = null`, status kept)
while on START/ARRIVED it is cancelled with metadata; a customer
cancelling always cancels with metadata. -/
def cancelRideTry (userId : ℕ) (ride? : Option Ride) (reason : Option String)
    (customerName riderName : String) (now : ℕ) : CancelResult :=
  match ride? with
  | none => .err .failedGeneric
  | some ride =>
    if ride.customer ≠ userId ∧ ride.rider ≠ some userId then
      .err .failedGeneric
    else if ride.status = "COMPLETED" then
      .err .completedProtected
    else if ¬(ride.status = "SEARCHING_FOR_RIDER" ∨ ride.status = "START" ∨
        ride.status = "ARRIVED") then
      .err .failedGeneric
    else
      let cancelledBy := if ride.customer = userId then "customer" else "rider"
      let cancellerName := if cancelledBy = "customer" then customerName else riderName
      let ride1 := { ride with cancellationReason := applyReason reason ride.cancellationReason }
      if cancelledBy = "rider" then
        let bl := if ride1.blacklistedRiders.contains userId then
            ride1.blacklistedRiders
          else ride1.blacklistedRiders ++ [userId]
        let ride2 := { ride1 with blacklistedRiders := bl }
        if ride2.status = "SEARCHING_FOR_RIDER" then
          .ok { ride2 with rider := none } cancelledBy
        else
          .ok { ride2 with
                status := "CANCELLED"
                cancelledBy := some cancelledBy
                cancelledByName := some cancellerName
                cancelledAt := some now } cancelledBy
      else
        .ok { ride1 with
              status := "CANCELLED"
              cancelledBy := some cancelledBy
              cancelledByName := some cancellerName
              cancelledAt := some now } cancelledBy

/-- The `cancelRide` controller as the caller sees it. -/
def cancelRide (rideId : String) (userId : ℕ) (ride? : Option Ride)
    (reason : Option String) (customerName riderName : String) (now : ℕ) : CancelResult :=
  if rideId = "" then .err .rideIdRequired
  else match cancelRideTry userId ride? reason customerName riderName now with
  | .ok r cb => .ok r cb
  | .err .completedProtected => .err .completedProtected
  | .err _ => .err .failedGeneric

/-- Outcome of the `customerCancelRide` socket handler: a `rideCanceled`
success emission carrying the saved ride, or a `cancelError` emission with
the message of the rejected request. -/
inductive SocketCancelResult where
  | ok (ride : Ride) : SocketCancelResult
  | err (message : String) : SocketCancelResult
deriving DecidableEq, Repr

/-- Whether the socket cancellation succeeded (and hence wrote the ride). -/
def SocketCancelResult.isOk : SocketCancelResult → Bool
  | .ok _ => true
  | .err _ => false

/-- The `customerCancelRide` socket handler: ride id required, lookup,
ownership check, COMPLETED and CANCELLED protections, then the write with
cancellation metadata. -/
def customerCancelRide (userId : ℕ) (rideId : String) (reason : Option String)
    (ride? : Option Ride) (customerName : String) (now : ℕ) : SocketCancelResult :=
  if rideId = "" then .err "Ride ID is required"
  else match ride? with
  | none => .err "Ride not found"
  | some ride =>
    if ride.customer ≠ userId then .err "You can only cancel your own rides"
    else if ride.status = "COMPLETED" then .err "Cannot cancel a completed ride"
    else if ride.status = "CANCELLED" then .err "Ride is already cancelled"
    else
      .ok { ride with
            status := "CANCELLED"
            cancelledBy := some "customer"
            cancelledByName := some customerName
            cancelledAt := some now
            cancellationReason := applyReason reason ride.cancellationReason }

/-- Targets of the emissions performed by the timeout path of the dispatch
loop: the global `onDuty` room, the per-ride room `ride_<id>` (the ride's
subscriber group), or the searching customer's own socket. -/
inductive EmitTarget where
  | onDuty : EmitTarget
  | rideRoom : EmitTarget
  | customerSocket : EmitTarget
deriving DecidableEq, Repr, BEq

/-- One socket emission: target and event name. -/
structure Emission where
  target : EmitTarget
  event : String
deriving DecidableEq, Repr, BEq

/-- The closure state of one `searchrider` dispatch controller: the
`canceled` and `rideAccepted` flags, the retry counter, and whether the
10-second interval timer is still installed. -/
structure SearchState where
  canceled : Bool
  rideAccepted : Bool
  retries : ℕ
  intervalActive : Bool
deriving DecidableEq, Repr

/-- Result of one firing of `retrySearch`: the updated closure state, the
status the step persists for the ride (only ever `TIMEOUT`), and the
emissions it performs (the `nearbyriders` / `rideOffer` emissions inside
`sendNearbyRiders` are modelled separately by `sendNearbyRiders` and
`rideOfferRecipients`). -/
structure StepOut where
  state : SearchState
  statusWrite : Option String
  emissions : List Emission
deriving DecidableEq, Repr

/-- One firing of `retrySearch`.  Each `await Ride.findById(rideId)` is an
oracle argument, allowing concurrent writes between the suspension points
exactly as in the event loop: `read1` is the status check at the top of
the handler, `finalCheck` the re-read guarding the timeout, `timeoutRead`
the read of the document that is then written.  `nearbyCount` is
`riders.length` from the `sendNearbyRiders` call.  A `none` read is a
deleted/missing ride.  Control flow follows the source: an early return
when `canceled`; stop the interval when the ride is gone; stop and mark
accepted when the status left `SEARCHING_FOR_RIDER`; otherwise bump the
counter, and when riders were found or the budget is spent clear the
interval and — only with the budget spent and no acceptance seen — run the
final re-check, write `TIMEOUT`, broadcast `rideOfferTimeout` and
`rideCanceled` to the `onDuty` room and an error to the customer's own
socket. -/
def retrySearchStep (read1 finalCheck timeoutRead : Option String)
    (nearbyCount : ℕ) (st : SearchState) : StepOut :=
  if st.canceled then ⟨st, none, []⟩
  else match read1 with
  | none => ⟨{ st with intervalActive := false }, none, []⟩
  | some s =>
    if s ≠ "SEARCHING_FOR_RIDER" then
      ⟨{ st with intervalActive := false, rideAccepted := true }, none, []⟩
    else
      let r := st.retries + 1
      if nearbyCount > 0 ∨ r ≥ 60 then
        let st1 : SearchState := { st with retries := r, intervalActive := false }
        if st.rideAccepted = false ∧ r ≥ 60 then
          match finalCheck with
          | none => ⟨st1, none, []⟩
          | some fs =>
            if fs ≠ "SEARCHING_FOR_RIDER" then ⟨st1, none, []⟩
            else match timeoutRead with
            | none => ⟨st1, none, [⟨.customerSocket, "error"⟩]⟩
            | some ts =>
              if ts ≠ "SEARCHING_FOR_RIDER" then
                ⟨st1, none, [⟨.customerSocket, "error"⟩]⟩
              else
                ⟨st1, some "TIMEOUT",
                  [⟨.onDuty, "rideOfferTimeout"⟩, ⟨.onDuty, "rideCanceled"⟩,
                   ⟨.customerSocket, "error"⟩]⟩
        else ⟨st1, none, []⟩
      else ⟨{ st with retries := r }, none, []⟩

/-- Concrete event sequence for the witness: a `goOnDuty` with valid
coordinates (whose `heading` is absent and defaults to 0), a dropped
`updateLocation` carrying a NaN latitude, and a dropped `goOnDuty`
with a string longitude. -/
def evsW : List RegEvent :=
  [.goOnDuty 1 "s1" (some "Cab") "A" (some ⟨.num 14, .num 121, .undef⟩),
   .updateLocation 1 "s1" (some "Cab") "A" true (some ⟨.nan, .num 122, .num 0⟩),
   .goOnDuty 2 "s2" none "B" (some ⟨.num 15, .str "x", .num 0⟩)]

/-- The registry entry `evsW` produces for driver 1. -/
def entryW : RiderEntry := ⟨"s1", ⟨.num 14, .num 121, .num 0⟩, 1, "Cab", "A"⟩

/-! ## Concrete fixtures used by witnesses and counterexamples -/

/-- A distance function placing everyone at the query point. -/
def dist0 : ℚ → ℚ → ℚ → ℚ → ℚ := fun _ _ _ _ => 0

/-- A distance function placing everyone 5000 m away. -/
def distFar : ℚ → ℚ → ℚ → ℚ → ℚ := fun _ _ _ _ => 5000

/-- A socket-liveness oracle under which every socket is connected. -/
def allAlive : String → Bool := fun _ => true

/-- Whether an emission does not target the ride's subscriber room. -/
def notRideRoom (e : Emission) : Bool := e.target != EmitTarget.rideRoom

/-- Prop: the operation either returned success with the ride unchanged or
was rejected. -/
def updateNoopOrRejected (res : UpdateResult) (ride : Ride) : Prop :=
  match res with
  | .ok r => r = ride
  | .err _ => True

/-- A ride searching for a rider while driver 5 is still referenced as its
`rider` (the configuration in which a driver-initiated `cancelRide` passes
the authorization check on a `SEARCHING_FOR_RIDER` ride). -/
def rideSearching5 : Ride :=
  ⟨1, some 5, "SEARCHING_FOR_RIDER", "Tricycle", some ⟨14, 121⟩, [], none, none, none, none⟩

/-- `rideSearching5` after driver 5 cancels: reset and blacklisted. -/
def rideAfterCancel : Ride :=
  { rideSearching5 with rider := none, blacklistedRiders := [5] }

/-- A registry holding only driver 5, on duty at the pickup point. -/
def regS5 : Registry := [(5, ⟨"s5", ⟨.num 14, .num 121, .num 0⟩, 5, "Tricycle", "R"⟩)]

/-- A plain searching ride with no assigned rider. -/
def rideSearchPlain : Ride :=
  ⟨1, none, "SEARCHING_FOR_RIDER", "Tricycle", some ⟨14, 121⟩, [], none, none, none, none⟩

/-- A searching ride that has blacklisted driver 7. -/
def rideBlack7 : Ride := { rideSearchPlain with blacklistedRiders := [7] }

/-- A registry holding only driver 7, on duty at the pickup point. -/
def regS7 : Registry := [(7, ⟨"s7", ⟨.num 14, .num 121, .num 0⟩, 7, "Tricycle", "B"⟩)]

/-- A driver document with a tricycle. -/
def drvTricycle : DriverDoc := ⟨"Tricycle"⟩

/-- A ride whose driver has arrived at the pickup. -/
def rideArrived : Ride := { rideSearching5 with status := "ARRIVED" }

/-- A cancelled ride. -/
def rideCancelledFix : Ride := { rideSearching5 with status := "CANCELLED" }

/-- A timed-out ride. -/
def rideTimeoutFix : Ride := { rideSearching5 with status := "TIMEOUT" }

/-- A completed ride. -/
def rideCompletedFix : Ride := { rideSearching5 with status := "COMPLETED" }

/-- The rider datum `sendNearbyRiders` produces for driver 7 of `regS7`
under `dist0`. -/
def riderDatum7 : RiderData := ⟨7, 0, "s7", "Tricycle"⟩

/-! ## Helper lemmas -/

theorem validateCoords_finite {c? : Option CoordsPayload} {sc : StoredCoords}
    (h : validateCoords c? = some sc) :
    sc.latitude.isFiniteNum = true ∧ sc.longitude.isFiniteNum = true := by
  cases c? with
  | none => cases h
  | some c =>
    rcases c with ⟨la, lo, hd⟩
    cases la <;> cases lo <;>
      simp [validateCoords, JsVal.isNumberType] at h
    rw [← h]
    exact ⟨rfl, rfl⟩

theorem mem_mapSet {reg : Registry} {k : ℕ} {v : RiderEntry} {p : ℕ × RiderEntry}
    (h : p ∈ mapSet reg k v) : p ∈ reg ∨ p = (k, v) := by
  unfold mapSet at h
  split at h
  · rcases List.mem_map.mp h with ⟨q, hq, he⟩
    by_cases hk : q.1 = k
    · right
      simp [hk] at he
      exact he.symm
    · left
      simp [hk] at he
      exact he ▸ hq
  · rcases List.mem_append.mp h with h1 | h1
    · exact Or.inl h1
    · right
      simpa using h1

theorem mem_mapDelete {reg : Registry} {k : ℕ} {p : ℕ × RiderEntry}
    (h : p ∈ mapDelete reg k) : p ∈ reg :=
  (List.mem_filter.mp h).1

theorem mapGet_mem {reg : Registry} {k : ℕ} {e : RiderEntry}
    (h : mapGet reg k = some e) : (k, e) ∈ reg := by
  unfold mapGet at h
  cases hf : List.find? (fun p => p.1 = k) reg with
  | none => rw [hf] at h; cases h
  | some pr =>
    rw [hf] at h
    have hm : pr ∈ reg := List.mem_of_find?_eq_some hf
    have hp : pr.1 = k := by simpa using List.find?_some hf
    have he : pr.2 = e := by simpa using h
    have hkepr : (k, e) = pr := by
      rw [← hp, ← he]
    rw [hkepr]
    exact hm

theorem regStep_wf {reg : Registry} (hwf : RegistryWF reg) (ev : RegEvent) :
    RegistryWF (regStep reg ev) := by
  cases ev with
  | goOnDuty uid sid vt name c? =>
    simp only [regStep]
    cases hv : validateCoords c? with
    | none => exact hwf
    | some sc =>
      intro p hp
      rcases mem_mapSet hp with h1 | h1
      · exact hwf p h1
      · rw [h1]
        exact validateCoords_finite hv
  | updateLocation uid sid vt name inRoom c? =>
    simp only [regStep]
    cases hv : validateCoords c? with
    | none => exact hwf
    | some sc =>
      cases hg : mapGet reg uid with
      | some e =>
        intro p hp
        rcases mem_mapSet hp with h1 | h1
        · exact hwf p h1
        · rw [h1]
          exact validateCoords_finite hv
      | none =>
        cases inRoom with
        | false => exact hwf
        | true =>
          intro p hp
          rcases mem_mapSet hp with h1 | h1
          · exact hwf p h1
          · rw [h1]
            exact validateCoords_finite hv
  | goOffDuty uid =>
    intro p hp
    exact hwf p (mem_mapDelete hp)
  | disconnectTimeout uid sid =>
    simp only [regStep]
    cases hg : mapGet reg uid with
    | none => exact hwf
    | some e =>
      show RegistryWF (if e.socketId = sid then mapDelete reg uid else reg)
      by_cases hs : e.socketId = sid
      · rw [if_pos hs]
        intro p hp
        exact hwf p (mem_mapDelete hp)
      · rw [if_neg hs]
        exact hwf

theorem runEvents_wf {reg : Registry} (hwf : RegistryWF reg) (evs : List RegEvent) :
    RegistryWF (runEvents evs reg) := by
  induction evs generalizing reg with
  | nil => exact hwf
  | cons e t ih => exact ih (regStep_wf hwf e)

/-! ## C10 — registry coordinates are always finite -/

/-- C10: every entry present in the on-duty driver registry after any
sequence of socket events (from the empty process-start registry) has
finite numeric latitude and longitude: each inserting or updating path —
`goOnDuty`, `updateLocation` in place, and the in-room re-registration —
validates the payload and drops the event without writing when a
coordinate is missing, non-numeric, or NaN after parsing. -/
theorem registry_coords_always_finite (evs : List RegEvent) (uid : ℕ)
    (e : RiderEntry) (h : mapGet (runEvents evs []) uid = some e) :
    e.coords.latitude.isFiniteNum = true ∧ e.coords.longitude.isFiniteNum = true := by
  have hwf : RegistryWF (runEvents evs []) :=
    runEvents_wf (by intro p hp; cases hp) evs
  exact hwf (uid, e) (mapGet_mem h)

/-- Witness for C10 at a concrete event sequence. -/
theorem registry_coords_always_finite_witness :
    mapGet (runEvents evsW []) 1 = some entryW ∧
    (entryW.coords.latitude.isFiniteNum = true ∧
      entryW.coords.longitude.isFiniteNum = true) :=
  ⟨by decide, registry_coords_always_finite evsW 1 entryW (by decide)⟩

/-! ## C1 — COMPLETED is absorbing -/

/-- C1: on a ride whose status is `COMPLETED`, `acceptRide`, `cancelRide`
and the `customerCancelRide` socket handler are rejected and
`updateRideStatus` is at most a success-returning no-op; no path writes the
ride, so status, cancellation metadata and rider assignment are unchanged. -/
theorem completed_ride_is_absorbing
    (dist : ℚ → ℚ → ℚ → ℚ → ℚ) (rideId : String) (riderId userId uid2 : ℕ)
    (ride : Ride) (driver? : Option DriverDoc) (reg : Registry) (inRoom : Bool)
    (maxRadius : ℚ) (target : String) (reason reason2 : Option String)
    (custName riderName : String) (now now2 : ℕ)
    (h : ride.status = "COMPLETED") :
    (acceptRide dist rideId riderId (some ride) driver? reg inRoom maxRadius).isOk = false
    ∧ updateNoopOrRejected (updateRideStatus userId rideId target (some ride)) ride
    ∧ (cancelRide rideId uid2 (some ride) reason custName riderName now).isOk = false
    ∧ (customerCancelRide uid2 rideId reason2 (some ride) custName now2).isOk = false := by
  refine ⟨?_, ?_, ?_, ?_⟩
  · by_cases hr : rideId = ""
    · simp [acceptRide, hr, AcceptResult.isOk]
    · simp [acceptRide, hr, acceptRideTry, h, AcceptResult.isOk]
  · by_cases hr : rideId = "" ∨ target = ""
    · simp [updateRideStatus, hr, updateNoopOrRejected]
    · by_cases ht : target = "START" ∨ target = "ARRIVED" ∨ target = "COMPLETED"
      · simp [updateRideStatus, hr, ht, h, updateNoopOrRejected]
      · simp [updateRideStatus, hr, ht, updateNoopOrRejected]
  · by_cases hr : rideId = ""
    · simp [cancelRide, hr, CancelResult.isOk]
    · by_cases ha : ride.customer ≠ uid2 ∧ ride.rider ≠ some uid2
      · simp [cancelRide, hr, cancelRideTry, ha, CancelResult.isOk]
      · simp [cancelRide, hr, cancelRideTry, ha, h, CancelResult.isOk]
  · by_cases hr : rideId = ""
    · simp [customerCancelRide, hr, SocketCancelResult.isOk]
    · by_cases hc : ride.customer ≠ uid2
      · simp [customerCancelRide, hr, hc, SocketCancelResult.isOk]
      · simp [customerCancelRide, hr, hc, h, SocketCancelResult.isOk]

/-- Witness for C1 at a concrete completed ride. -/
theorem completed_ride_is_absorbing_witness :
    rideCompletedFix.status = "COMPLETED" ∧
    ((acceptRide dist0 "r1" 5 (some rideCompletedFix) (some drvTricycle) regS5
        false 3000).isOk = false
      ∧ updateNoopOrRejected
          (updateRideStatus 1 "r1" "START" (some rideCompletedFix)) rideCompletedFix
      ∧ (cancelRide "r1" 1 (some rideCompletedFix) none "C" "R" 0).isOk = false
      ∧ (customerCancelRide 1 "r1" none (some rideCompletedFix) "C" 0).isOk = false) :=
  ⟨by decide,
   completed_ride_is_absorbing dist0 "r1" 5 1 1 rideCompletedFix (some drvTricycle)
     regS5 false 3000 "START" none none "C" "R" 0 0 (by decide)⟩

/-! ## C4 — accepting a non-searching ride fails and mutates nothing -/

/-- C4: when the ride's persisted status is not `SEARCHING_FOR_RIDER`,
`acceptRide` raises the state-conflict error ("no longer available") inside
the handler, the caller receives the rewrapped `BadRequestError`, and the
error return means no field of the ride was written (every throw precedes
the mutation and `ride.save()`). -/
theorem accept_non_searching_fails_unchanged
    (dist : ℚ → ℚ → ℚ → ℚ → ℚ) (rideId : String) (riderId : ℕ) (ride : Ride)
    (driver? : Option DriverDoc) (reg : Registry) (inRoom : Bool) (maxRadius : ℚ)
    (hId : rideId ≠ "") (h : ride.status ≠ "SEARCHING_FOR_RIDER") :
    acceptRideTry dist riderId (some ride) driver? reg inRoom maxRadius
      = .err .notAvailable
    ∧ acceptRide dist rideId riderId (some ride) driver? reg inRoom maxRadius
      = .err .failedGeneric := by
  have h1 : acceptRideTry dist riderId (some ride) driver? reg inRoom maxRadius
      = .err .notAvailable := by
    unfold acceptRideTry
    exact if_pos h
  exact ⟨h1, by simp [acceptRide, hId, h1]⟩

/-- Witness for C4 at a concrete cancelled ride. -/
theorem accept_non_searching_fails_unchanged_witness :
    ("r1" : String) ≠ "" ∧ rideCancelledFix.status ≠ "SEARCHING_FOR_RIDER" ∧
    (acceptRideTry dist0 5 (some rideCancelledFix) (some drvTricycle) regS5 false 3000
        = .err .notAvailable
      ∧ acceptRide dist0 "r1" 5 (some rideCancelledFix) (some drvTricycle) regS5
          false 3000 = .err .failedGeneric) :=
  ⟨by decide, by decide,
   accept_non_searching_fails_unchanged dist0 "r1" 5 rideCancelledFix
     (some drvTricycle) regS5 false 3000 (by decide) (by decide)⟩

/-! ## C9 — updateRideStatus checks no caller identity -/

/-- C9: `updateRideStatus` never reads the authenticated user: for every
caller — owner, assigned driver or unrelated user — a request naming an
existing non-`COMPLETED` ride and a target in `START`/`ARRIVED`/`COMPLETED`
succeeds and writes the target status. -/
theorem updateRideStatus_no_identity_check
    (userId : ℕ) (rideId target : String) (ride : Ride)
    (hId : rideId ≠ "") (hs : ride.status ≠ "COMPLETED")
    (ht : target = "START" ∨ target = "ARRIVED" ∨ target = "COMPLETED") :
    updateRideStatus userId rideId target (some ride)
      = .ok { ride with status := target } := by
  have hne : ¬(rideId = "" ∨ target = "") := by
    rintro (h1 | h1)
    · exact hId h1
    · rcases ht with h2 | h2 | h2 <;> rw [h2] at h1 <;> exact absurd h1 (by decide)
  simp [updateRideStatus, hne, ht, hs]

/-- Witness for C9: a user who is neither the customer nor the rider of
`rideSearching5` completes it directly. -/
theorem updateRideStatus_no_identity_check_witness :
    ("r1" : String) ≠ "" ∧ rideSearching5.status ≠ "COMPLETED" ∧
    updateRideStatus 999 "r1" "COMPLETED" (some rideSearching5)
      = .ok { rideSearching5 with status := "COMPLETED" } :=
  ⟨by decide, by decide,
   updateRideStatus_no_identity_check 999 "r1" "COMPLETED" rideSearching5
     (by decide) (by decide) (Or.inr (Or.inr rfl))⟩

/-! ## C5 — monotonicity of status transitions -/

/-- Counterexample to C5 as stated: `updateRideStatus` moves an `ARRIVED`
ride backward to `START`, revives a `CANCELLED` ride to `COMPLETED`, and
revives a `TIMEOUT` ride to `ARRIVED` — all as plain successes. -/
theorem updateRideStatus_backward_and_revive :
    updateRideStatus 42 "r1" "START" (some rideArrived)
      = .ok { rideArrived with status := "START" }
    ∧ updateRideStatus 42 "r1" "COMPLETED" (some rideCancelledFix)
      = .ok { rideCancelledFix with status := "COMPLETED" }
    ∧ updateRideStatus 42 "r1" "ARRIVED" (some rideTimeoutFix)
      = .ok { rideTimeoutFix with status := "ARRIVED" } := by
  refine ⟨?_, ?_, ?_⟩ <;> decide

/-- C5 amended: the only transition guard `updateRideStatus` enforces is
that `COMPLETED` is absorbing (a success-returning no-op); every
non-`COMPLETED` ride — including `CANCELLED` and `TIMEOUT` ones — can be
set to any of `START`, `ARRIVED`, `COMPLETED`, backward moves included. -/
theorem only_completed_is_protected
    (userId : ℕ) (rideId target : String) (ride : Ride)
    (hId : rideId ≠ "")
    (ht : target = "START" ∨ target = "ARRIVED" ∨ target = "COMPLETED") :
    (ride.status = "COMPLETED" →
      updateRideStatus userId rideId target (some ride) = .ok ride)
    ∧ (ride.status ≠ "COMPLETED" →
      updateRideStatus userId rideId target (some ride)
        = .ok { ride with status := target }) := by
  have hne : ¬(rideId = "" ∨ target = "") := by
    rintro (h1 | h1)
    · exact hId h1
    · rcases ht with h2 | h2 | h2 <;> rw [h2] at h1 <;> exact absurd h1 (by decide)
  constructor
  · intro hc
    simp [updateRideStatus, hne, ht, hc]
  · intro hc
    simp [updateRideStatus, hne, ht, hc]

/-- Witness for the amended C5 on both sides of the guard. -/
theorem only_completed_is_protected_witness :
    ("r1" : String) ≠ "" ∧
    (rideCompletedFix.status = "COMPLETED" →
      updateRideStatus 42 "r1" "START" (some rideCompletedFix) = .ok rideCompletedFix)
    ∧ (rideCompletedFix.status ≠ "COMPLETED" →
      updateRideStatus 42 "r1" "START" (some rideCompletedFix)
        = .ok { rideCompletedFix with status := "START" }) :=
  ⟨by decide,
   only_completed_is_protected 42 "r1" "START" rideCompletedFix (by decide)
     (Or.inl rfl)⟩

/-! ## C6 — the too-far error and what the caller actually receives -/

/-- Counterexample to C6 as stated: driver 5 is 5000 m from the pickup with
a 3000 m radius, yet the error delivered by `acceptRide` is the generic
`Failed to accept ride`, which carries neither the actual nor the maximum
distance; only the inner (caught) error carries them. -/
theorem too_far_error_delivered_generic :
    acceptRide distFar "r1" 5 (some rideSearching5) (some drvTricycle) regS5
      false 3000 = .err .failedGeneric
    ∧ AcceptErr.failedGeneric.reportsDistances = false
    ∧ acceptRideTry distFar 5 (some rideSearching5) (some drvTricycle) regS5
        false 3000 = .err (.tooFar 5000 3000) := by
  refine ⟨?_, ?_, ?_⟩ <;> decide

/-- C6 amended: when an on-duty driver beyond the configured radius accepts,
the handler raises an error carrying the actual distance and the maximum
(the code formats exactly these two figures as two-decimal kilometers in
the thrown message), but the surrounding `catch` rewraps every inner error,
so the caller is delivered the generic `Failed to accept ride` without the
distance figures. -/
theorem too_far_details_swallowed_by_catch
    (dist : ℚ → ℚ → ℚ → ℚ → ℚ) (rideId : String) (riderId : ℕ) (ride : Ride)
    (driver : DriverDoc) (reg : Registry) (entry : RiderEntry) (inRoom : Bool)
    (maxRadius rla rlo : ℚ) (p : PickupLoc)
    (hId : rideId ≠ "") (hs : ride.status = "SEARCHING_FOR_RIDER")
    (hv : driver.vehicleType = ride.vehicle)
    (hreg : mapGet reg riderId = some entry)
    (hla : entry.coords.latitude = .num rla)
    (hlo : entry.coords.longitude = .num rlo)
    (hp : ride.pickup = some p) (hp1 : p.latitude ≠ 0) (hp2 : p.longitude ≠ 0)
    (hd : dist rla rlo p.latitude p.longitude > maxRadius) :
    acceptRideTry dist riderId (some ride) (some driver) reg inRoom maxRadius
      = .err (.tooFar (dist rla rlo p.latitude p.longitude) maxRadius)
    ∧ acceptRide dist rideId riderId (some ride) (some driver) reg inRoom maxRadius
      = .err .failedGeneric := by
  have h1 : acceptRideTry dist riderId (some ride) (some driver) reg inRoom maxRadius
      = .err (.tooFar (dist rla rlo p.latitude p.longitude) maxRadius) := by
    simp [acceptRideTry, hreg, hp, hla, hlo, hs, hv, hp1, hp2, hd]
  exact ⟨h1, by simp [acceptRide, hId, h1]⟩

/-- Witness for the amended C6 at the counterexample's configuration. -/
theorem too_far_details_swallowed_by_catch_witness :
    mapGet regS5 5 = some ⟨"s5", ⟨.num 14, .num 121, .num 0⟩, 5, "Tricycle", "R"⟩ ∧
    distFar 14 121 14 121 > 3000 ∧
    (acceptRideTry distFar 5 (some rideSearching5) (some drvTricycle) regS5 false 3000
        = .err (.tooFar (distFar 14 121 14 121) 3000)
      ∧ acceptRide distFar "r1" 5 (some rideSearching5) (some drvTricycle) regS5
          false 3000 = .err .failedGeneric) :=
  ⟨by decide, by decide,
   too_far_details_swallowed_by_catch distFar "r1" 5 rideSearching5 drvTricycle
     regS5 ⟨"s5", ⟨.num 14, .num 121, .num 0⟩, 5, "Tricycle", "R"⟩ false 3000 14 121
     ⟨14, 121⟩ (by decide) (by decide) (by decide) (by decide) (by decide) (by decide)
     (by decide) (by decide) (by decide) (by decide)⟩

/-! ## C8 — acceptRide never consults the blacklist -/

/-- C8: `acceptRide` reads `blacklistedRiders` nowhere: an on-duty driver
with finite registry coordinates, a matching vehicle type and a distance
within the configured radius succeeds and is assigned — the hypothesis
that the driver is already blacklisted for this very ride changes
nothing. -/
theorem acceptRide_ignores_blacklist
    (dist : ℚ → ℚ → ℚ → ℚ → ℚ) (rideId : String) (riderId : ℕ) (ride : Ride)
    (driver : DriverDoc) (reg : Registry) (entry : RiderEntry) (inRoom : Bool)
    (maxRadius rla rlo : ℚ) (p : PickupLoc)
    (hbl : riderId ∈ ride.blacklistedRiders)
    (hId : rideId ≠ "") (hs : ride.status = "SEARCHING_FOR_RIDER")
    (hv : driver.vehicleType = ride.vehicle)
    (hreg : mapGet reg riderId = some entry)
    (hla : entry.coords.latitude = .num rla)
    (hlo : entry.coords.longitude = .num rlo)
    (hp : ride.pickup = some p) (hp1 : p.latitude ≠ 0) (hp2 : p.longitude ≠ 0)
    (hd : ¬dist rla rlo p.latitude p.longitude > maxRadius) :
    acceptRide dist rideId riderId (some ride) (some driver) reg inRoom maxRadius
      = .ok { ride with rider := some riderId, status := "START" } := by
  have h1 : acceptRideTry dist riderId (some ride) (some driver) reg inRoom maxRadius
      = .ok { ride with rider := some riderId, status := "START" } := by
    simp [acceptRideTry, hreg, hp, hla, hlo, hs, hv, hp1, hp2, hd]
  simp [acceptRide, hId, h1]

/-- Witness for C8: driver 7 is blacklisted on `rideBlack7` yet accepts it. -/
theorem acceptRide_ignores_blacklist_witness :
    7 ∈ rideBlack7.blacklistedRiders ∧
    acceptRide dist0 "r1" 7 (some rideBlack7) (some drvTricycle) regS7 false 3000
      = .ok { rideBlack7 with rider := some 7, status := "START" } :=
  ⟨by decide,
   acceptRide_ignores_blacklist dist0 "r1" 7 rideBlack7 drvTricycle regS7
     ⟨"s7", ⟨.num 14, .num 121, .num 0⟩, 7, "Tricycle", "B"⟩ false 3000 14 121
     ⟨14, 121⟩ (by decide) (by decide) (by decide) (by decide) (by decide)
     (by decide) (by decide) (by decide) (by decide) (by decide) (by decide)⟩

/-! ## C7 — the nearby-driver computation -/

/-- Counterexample to C7 as stated: the only exclusion set the system has —
the ride's `blacklistedRiders` — is not consulted: blacklisted driver 7 is
returned by `sendNearbyRiders` for the very ride that blacklists them. -/
theorem sendNearbyRiders_ignores_blacklist :
    rideBlack7.blacklistedRiders = [7]
    ∧ (sendNearbyRiders dist0 regS7 14 121 3000).map RiderData.riderId = [7] := by
  refine ⟨?_, ?_⟩ <;> decide

/-- C7 amended: `sendNearbyRiders` applies no exclusion set at all; it
returns exactly the registry drivers with finite stored coordinates whose
computed distance is at most the radius, in ascending distance order. -/
theorem sendNearbyRiders_radius_and_sorted
    (dist : ℚ → ℚ → ℚ → ℚ → ℚ) (reg : Registry) (locLat locLon maxRadius : ℚ) :
    (∀ x ∈ sendNearbyRiders dist reg locLat locLon maxRadius,
      x.distance ≤ maxRadius)
    ∧ List.Sorted distLE (sendNearbyRiders dist reg locLat locLon maxRadius) := by
  constructor
  · intro x hx
    unfold sendNearbyRiders at hx
    rw [List.mem_insertionSort] at hx
    have := (List.mem_filter.mp hx).2
    exact of_decide_eq_true this
  · exact List.sorted_insertionSort distLE _

/-- Witness for the amended C7: the single returned driver of a concrete
query is within the radius, and the returned list is sorted. -/
theorem sendNearbyRiders_radius_and_sorted_witness :
    riderDatum7 ∈ sendNearbyRiders dist0 regS7 14 121 3000 ∧
    riderDatum7.distance ≤ 3000 ∧
    List.Sorted distLE (sendNearbyRiders dist0 regS7 14 121 3000) :=
  ⟨by decide,
   (sendNearbyRiders_radius_and_sorted dist0 regS7 14 121 3000).1 riderDatum7
     (by decide),
   (sendNearbyRiders_radius_and_sorted dist0 regS7 14 121 3000).2⟩

/-! ## C2 — driver cancellation, blacklisting, and re-offers -/

/-- C2: a driver cancelling a `SEARCHING_FOR_RIDER` ride is blacklisted,
the status stays `SEARCHING_FOR_RIDER` and `rider` is reset — but the
blacklist does not stop the proximity-match offer path: with the
cancelling driver still on duty at the pickup point, the `rideOffer`
emission of `sendNearbyRiders` still targets their socket (only
`broadcastNewRideRequest` filters the blacklist). -/
theorem blacklisted_driver_still_receives_rideOffer :
    cancelRideTry 5 (some rideSearching5) none "Cust" "Drv" 0
      = .ok rideAfterCancel "rider"
    ∧ rideAfterCancel.status = "SEARCHING_FOR_RIDER"
    ∧ rideAfterCancel.rider = none
    ∧ 5 ∈ rideAfterCancel.blacklistedRiders
    ∧ rideOfferRecipients dist0 regS5 14 121 3000 = ["s5"]
    ∧ newRideRequestRecipients regS5 rideAfterCancel.blacklistedRiders allAlive
      = [] := by
  refine ⟨?_, ?_, ?_, ?_, ?_, ?_⟩ <;> decide

/-! ## C3 — the timeout of the dispatch loop -/

/-- Counterexample to C3 as stated: at the 60th retry of a still-searching
ride the step writes `TIMEOUT`, but none of its emissions targets the
ride's subscriber room `ride_<id>` — the broadcasts go to the `onDuty`
room and the searching customer's own socket only. -/
theorem timeout_broadcast_misses_ride_room :
    (retrySearchStep (some "SEARCHING_FOR_RIDER") (some "SEARCHING_FOR_RIDER")
        (some "SEARCHING_FOR_RIDER") 0 ⟨false, false, 59, true⟩).statusWrite
      = some "TIMEOUT"
    ∧ (retrySearchStep (some "SEARCHING_FOR_RIDER") (some "SEARCHING_FOR_RIDER")
        (some "SEARCHING_FOR_RIDER") 0 ⟨false, false, 59, true⟩).emissions.all
        notRideRoom = true := by
  refine ⟨?_, ?_⟩ <;> decide

/-- C3 amended: with the retry budget spent on a still-searching ride the
step re-reads the persisted status, and only if every re-read still says
`SEARCHING_FOR_RIDER` writes `TIMEOUT` exactly once and emits
`rideOfferTimeout` and `rideCanceled` to the on-duty registry plus an
error to the searching customer's socket (not to the ride's subscriber
room), then stops; if the final re-check sees any other status nothing is
written or broadcast, and a second firing after the `TIMEOUT` write is a
silent stop — no double write, no double broadcast. -/
theorem retry_timeout_once_guarded_idempotent
    (finalCheck timeoutRead : Option String) (n n2 : ℕ) (st st2 : SearchState)
    (h1 : st = ⟨false, false, 59, true⟩)
    (hf : finalCheck ≠ some "SEARCHING_FOR_RIDER")
    (h2 : st2.canceled = false) :
    retrySearchStep (some "SEARCHING_FOR_RIDER") (some "SEARCHING_FOR_RIDER")
        (some "SEARCHING_FOR_RIDER") n st
      = ⟨⟨false, false, 60, false⟩, some "TIMEOUT",
         [⟨.onDuty, "rideOfferTimeout"⟩, ⟨.onDuty, "rideCanceled"⟩,
          ⟨.customerSocket, "error"⟩]⟩
    ∧ (retrySearchStep (some "SEARCHING_FOR_RIDER") finalCheck timeoutRead n st).statusWrite
      = none
    ∧ (retrySearchStep (some "SEARCHING_FOR_RIDER") finalCheck timeoutRead n st).emissions
      = []
    ∧ (retrySearchStep (some "TIMEOUT") finalCheck timeoutRead n2 st2).statusWrite = none
    ∧ (retrySearchStep (some "TIMEOUT") finalCheck timeoutRead n2 st2).emissions = []
    ∧ (retrySearchStep (some "TIMEOUT") finalCheck timeoutRead n2 st2).state.intervalActive
      = false := by
  subst h1
  refine ⟨?_, ?_, ?_, ?_, ?_, ?_⟩
  · simp [retrySearchStep]
  · cases finalCheck with
    | none => simp [retrySearchStep]
    | some fs =>
      have : fs ≠ "SEARCHING_FOR_RIDER" := fun h => hf (by rw [h])
      simp [retrySearchStep, this]
  · cases finalCheck with
    | none => simp [retrySearchStep]
    | some fs =>
      have : fs ≠ "SEARCHING_FOR_RIDER" := fun h => hf (by rw [h])
      simp [retrySearchStep, this]
  · simp [retrySearchStep, h2]
  · simp [retrySearchStep, h2]
  · simp [retrySearchStep, h2]

/-- Witness for the amended C3 at concrete reads and states. -/
theorem retry_timeout_once_guarded_idempotent_witness :
    (some "CANCELLED" : Option String) ≠ some "SEARCHING_FOR_RIDER" ∧
    SearchState.canceled ⟨false, true, 60, false⟩ = false ∧
    (retrySearchStep (some "SEARCHING_FOR_RIDER") (some "SEARCHING_FOR_RIDER")
        (some "SEARCHING_FOR_RIDER") 0 ⟨false, false, 59, true⟩
      = ⟨⟨false, false, 60, false⟩, some "TIMEOUT",
         [⟨.onDuty, "rideOfferTimeout"⟩, ⟨.onDuty, "rideCanceled"⟩,
          ⟨.customerSocket, "error"⟩]⟩
    ∧ (retrySearchStep (some "SEARCHING_FOR_RIDER") (some "CANCELLED") none 0
        ⟨false, false, 59, true⟩).statusWrite = none
    ∧ (retrySearchStep (some "SEARCHING_FOR_RIDER") (some "CANCELLED") none 0
        ⟨false, false, 59, true⟩).emissions = []
    ∧ (retrySearchStep (some "TIMEOUT") (some "CANCELLED") none 1
        ⟨false, true, 60, false⟩).statusWrite = none
    ∧ (retrySearchStep (some "TIMEOUT") (some "CANCELLED") none 1
        ⟨false, true, 60, false⟩).emissions = []
    ∧ (retrySearchStep (some "TIMEOUT") (some "CANCELLED") none 1
        ⟨false, true, 60, false⟩).state.intervalActive = false) :=
  ⟨by decide, by decide,
   retry_timeout_once_guarded_idempotent (some "CANCELLED") none 0 1
     ⟨false, false, 59, true⟩ ⟨false, true, 60, false⟩ rfl (by decide) rfl⟩
